import Mathlib

/-!
Shallow embedding of the `weather_task` repository's core
(`weather-core`: `provider.rs`, `provider/openweather.rs`,
`provider/weatherapi.rs`, `config.rs`, `model.rs`), with theorems checking
the natural-language specification against it.

Modelling conventions:
* `chrono::DateTime<Utc>` instants are modelled as `Int` Unix epoch seconds
  (`timestamp()` is the identity in this model); `chrono`'s `date_naive` of
  an instant is its floor-divided epoch day (`Int.fdiv · 86400`), and the
  `Display` rendering of an instant is `toString` of its epoch value.
* Rust `f64` fields are modelled as exact rationals `ℚ`.
* Rust `u8` fields are modelled as `Nat` (a decoded `u8` lies in `[0,255]`).
* Rust `String` is modelled as Lean `String`; where Rust indexes bytes, a
  string is viewed as its `List Char` with `Char.utf8Size` giving each
  character's UTF-8 byte count, and a Rust panic is modelled as `none`.
* Fallible functions returning `anyhow::Result<T>` are modelled as
  `Except String T`, carrying the formatted error message.
* The network round trip itself is not modelled: each adapter's
  `get_weather` is split into its pure dispatch (which upstream endpoint is
  chosen, or which error is returned before any request is sent) and the
  pure normalization of an already-decoded upstream payload, with the
  call-time `now` passed explicitly.
-/

namespace WeatherTask

/-- `ProviderId` from `provider.rs`: the closed enumeration of providers. -/
inductive ProviderId where
  | OpenWeather
  | WeatherApi
deriving DecidableEq, Repr

/-- `ProviderId::as_str` from `provider.rs` (also its `Display` impl). -/
def ProviderId.as_str : ProviderId → String
  | .OpenWeather => "openweather"
  | .WeatherApi => "weatherapi"

/-- `ProviderId::all` from `provider.rs`. -/
def ProviderId.all : List ProviderId :=
  [ProviderId.OpenWeather, ProviderId.WeatherApi]

/-- Model of Rust `str::to_lowercase` restricted to ASCII case mapping
(the provider names involved are ASCII). -/
def to_lowercase (s : String) : String :=
  ⟨s.data.map Char.toLower⟩

/-- The error message built in `TryFrom<&str> for ProviderId`
(`provider.rs` lines 46-48). -/
def unknown_provider_msg (value : String) : String :=
  "Unknown provider '" ++ value ++
    "'. Supported providers: openweather, weatherapi."

/-- `TryFrom<&str> for ProviderId` from `provider.rs`: lowercase the input,
then match it against the canonical forms. -/
def ProviderId.try_from (value : String) : Except String ProviderId :=
  let lower := to_lowercase value
  if lower = "openweather" then .ok ProviderId.OpenWeather
  else if lower = "weatherapi" then .ok ProviderId.WeatherApi
  else .error (unknown_provider_msg value)

/-- `DateRequest` from `provider.rs`. -/
inductive DateRequest where
  | Current
  | Future (dt : Int)
  | Past (dt : Int)
deriving DecidableEq, Repr

/-- `classify_date` from `provider.rs` lines 91-102. -/
def classify_date (now : Int) (when : Option Int) : DateRequest :=
  match when with
  | none => DateRequest.Current
  | some dt => if dt < now then DateRequest.Past dt else DateRequest.Future dt

/-- `WeatherRequest` from `model.rs`. -/
structure WeatherRequest where
  address : String
  «when» : Option Int

/-- `WeatherResponse` from `model.rs` (the spec's `NormalizedObservation`). -/
structure WeatherResponse where
  provider : String
  location_name : String
  temperature_c : ℚ
  feels_like_c : ℚ
  condition : String
  humidity_pct : Nat
  wind_speed_mps : ℚ
  observation_time : Int
deriving DecidableEq, Repr

/-- `unix_to_utc` from both adapter files: `NaiveDateTime::from_timestamp_opt`
succeeds exactly on the epoch-second range representable by `chrono`
(`NaiveDateTime::MIN.timestamp() ..= NaiveDateTime::MAX.timestamp()`). -/
def unix_to_utc (ts : Int) : Option Int :=
  if -8334601228800 ≤ ts ∧ ts ≤ 8210266876799 then some ts else none

/-- UTF-8 byte length of a string viewed as its character list
(Rust `str::len`). -/
def utf8Len (s : List Char) : Nat :=
  (s.map Char.utf8Size).sum

/-- Rust byte slicing `&body[..n]`: succeeds with the characters occupying
the first `n` bytes when `n` falls on a character boundary, and panics
(modelled as `none`) when `n` falls inside a multi-byte character or past
the end of the string. -/
def byteSlice (s : List Char) (n : Nat) : Option (List Char) :=
  if n = 0 then some []
  else
    match s with
    | [] => none
    | c :: rest =>
      if c.utf8Size ≤ n then (byteSlice rest (n - c.utf8Size)).map (c :: ·)
      else none

/-- `truncate_body` from `openweather.rs` lines 224-231 and `weatherapi.rs`
lines 225-232: when the body exceeds 200 bytes it is byte-sliced at 200 and
`"..."` is appended; the byte slice panics (`none`) off a char boundary. -/
def truncate_body (body : List Char) : Option (List Char) :=
  if utf8Len body > 200 then (byteSlice body 200).map (· ++ "...".data)
  else some body

/-- One step of the fold underlying Rust `Iterator::min_by_key`: keep the
accumulator unless the new element's key is strictly smaller, so the first
of several equally-minimal elements wins. -/
def min_step (f : α → Int) (acc y : α) : α :=
  if f y < f acc then y else acc

/-- Rust `Iterator::min_by_key`: the element whose key is minimal, the first
such element when several are equally minimal, `none` on an empty iterator. -/
def min_by_key (f : α → Int) : List α → Option α
  | [] => none
  | x :: xs => some (xs.foldl (min_step f) x)

/-- `OwMain` from `openweather.rs`. -/
structure OwMain where
  temp : ℚ
  feels_like : ℚ
  humidity : Nat

/-- `OwWeather` from `openweather.rs`. -/
structure OwWeather where
  description : String

/-- `OwWind` from `openweather.rs`. -/
structure OwWind where
  speed : ℚ

/-- `OwCurrentResponse` from `openweather.rs`. -/
structure OwCurrentResponse where
  name : String
  dt : Int
  main : OwMain
  weather : List OwWeather
  wind : OwWind

/-- `OwCity` from `openweather.rs`. -/
structure OwCity where
  name : String
  country : String

/-- `OwForecastEntry` from `openweather.rs`. -/
structure OwForecastEntry where
  dt : Int
  main : OwMain
  weather : List OwWeather
  wind : OwWind

/-- `OwForecastResponse` from `openweather.rs`. -/
structure OwForecastResponse where
  city : OwCity
  list : List OwForecastEntry

/-- The capability error built for `DateRequest::Past` in
`OpenWeatherProvider::get_weather` (`openweather.rs` lines 195-201). -/
def ow_historical_msg (dt : Int) : String :=
  "Historical weather (" ++ toString dt ++
    ") is not supported by free OpenWeather API.\n" ++
    "Only current weather and up to 5 days forecast are available."

/-- The capability error built for an out-of-range `DateRequest::Future` in
`OpenWeatherProvider::get_weather` (`openweather.rs` lines 204-210). -/
def ow_range_msg (dt max_forecast : Int) : String :=
  "Requested date " ++ toString dt ++
    " exceeds the 5-day forecast limit of free OpenWeather API.\n" ++
    "Allowed range: now .. " ++ toString max_forecast ++ "."

/-- The action `OpenWeatherProvider::get_weather` takes before any network
I/O: either a capability error returned immediately, or the choice of
upstream endpoint to call. -/
inductive OwAction where
  | fetchCurrent
  | fetchForecast (dt : Int)
  | fail (msg : String)
deriving DecidableEq, Repr

/-- The dispatch of `OpenWeatherProvider::get_weather` (`openweather.rs`
lines 187-216): classify the request against `now`, reject `Past` outright,
reject `Future` beyond `now + Duration::days(5)` (432000 seconds), and
otherwise choose the endpoint. No network request is issued on the `fail`
branches. -/
def ow_dispatch (now : Int) («when» : Option Int) : OwAction :=
  match classify_date now «when» with
  | DateRequest.Current => OwAction.fetchCurrent
  | DateRequest.Past dt => OwAction.fail (ow_historical_msg dt)
  | DateRequest.Future dt =>
    let max_forecast := now + 5 * 86400
    if dt > max_forecast then OwAction.fail (ow_range_msg dt max_forecast)
    else OwAction.fetchForecast dt

/-- Normalization done by `OpenWeatherProvider::fetch_current` on a decoded
2xx payload (`openweather.rs` lines 57-73); `now` is the `Utc::now()`
fallback used when the payload's timestamp is unrepresentable. -/
def ow_fetch_current_normalize (now : Int) (parsed : OwCurrentResponse) :
    WeatherResponse :=
  { provider := "openweather"
    location_name := parsed.name
    temperature_c := parsed.main.temp
    feels_like_c := parsed.main.feels_like
    condition := ((parsed.weather.head?.map OwWeather.description).getD "Unknown")
    humidity_pct := parsed.main.humidity
    wind_speed_mps := parsed.wind.speed
    observation_time := (unix_to_utc parsed.dt).getD now }

/-- Normalization done by `OpenWeatherProvider::fetch_forecast` on a decoded
2xx payload (`openweather.rs` lines 108-134): nearest-timestamp selection
over the forecast list, then field mapping. -/
def ow_fetch_forecast_normalize (now target : Int)
    (parsed : OwForecastResponse) : Except String WeatherResponse :=
  match min_by_key (fun e => |e.dt - target|) parsed.list with
  | none => Except.error "OpenWeather forecast response contained no data"
  | some entry =>
    Except.ok
      { provider := "openweather"
        location_name := parsed.city.name ++ ", " ++ parsed.city.country
        temperature_c := entry.main.temp
        feels_like_c := entry.main.feels_like
        condition := ((entry.weather.head?.map OwWeather.description).getD "Unknown")
        humidity_pct := entry.main.humidity
        wind_speed_mps := entry.wind.speed
        observation_time := (unix_to_utc entry.dt).getD now }

/-- `WaLocation` from `weatherapi.rs`. -/
structure WaLocation where
  name : String
  localtime_epoch : Option Int

/-- `WaCondition` from `weatherapi.rs`. -/
structure WaCondition where
  text : String

/-- `WaCurrent` from `weatherapi.rs`. -/
structure WaCurrent where
  temp_c : ℚ
  feelslike_c : ℚ
  humidity : Nat
  wind_kph : ℚ
  condition : WaCondition
  last_updated_epoch : Option Int

/-- `WaResponse` from `weatherapi.rs`. -/
structure WaResponse where
  location : WaLocation
  current : WaCurrent

/-- `WaForecastHour` from `weatherapi.rs`. -/
structure WaForecastHour where
  time_epoch : Int
  temp_c : ℚ
  feelslike_c : ℚ
  humidity : Nat
  wind_kph : ℚ
  condition : WaCondition

/-- `WaForecastDay` from `weatherapi.rs`. -/
structure WaForecastDay where
  hour : List WaForecastHour

/-- `WaForecast` from `weatherapi.rs`. -/
structure WaForecast where
  forecastday : List WaForecastDay

/-- `WaForecastResponse` from `weatherapi.rs`. -/
structure WaForecastResponse where
  location : WaLocation
  forecast : WaForecast

/-- `chrono::DateTime::date_naive` in the epoch model: the (floor) epoch
day of an instant. -/
def epoch_day (t : Int) : Int :=
  Int.fdiv t 86400

/-- The three upstream WeatherAPI.com endpoints. -/
inductive WaEndpoint where
  | current
  | forecast
  | history
deriving DecidableEq, Repr

/-- Endpoint selection of `WeatherApiProvider::get_weather` (`weatherapi.rs`
lines 79-145): `target = when.unwrap_or(now)`; the current endpoint when no
instant was given or the target's calendar date equals today's, otherwise
the forecast endpoint for a later date and the history endpoint for an
earlier one. -/
def wa_endpoint (now : Int) («when» : Option Int) : WaEndpoint :=
  let target := «when».getD now
  let today := epoch_day now
  let target_date := epoch_day target
  if «when» = none ∨ target_date = today then WaEndpoint.current
  else if target_date > today then WaEndpoint.forecast
  else WaEndpoint.history

/-- Normalization of the WeatherAPI current payload (`weatherapi.rs` lines
113-136): observation time prefers `last_updated_epoch`, then
`localtime_epoch`, then call-time `now`; wind is converted from km/h. -/
def wa_current_normalize (now : Int) (parsed : WaResponse) :
    WeatherResponse :=
  { provider := "weatherapi"
    location_name := parsed.location.name
    temperature_c := parsed.current.temp_c
    feels_like_c := parsed.current.feelslike_c
    condition := parsed.current.condition.text
    humidity_pct := parsed.current.humidity
    wind_speed_mps := parsed.current.wind_kph / 3.6
    observation_time :=
      (((parsed.current.last_updated_epoch).or
          parsed.location.localtime_epoch).bind unix_to_utc).getD now }

/-- Normalization of the WeatherAPI forecast/history payload
(`weatherapi.rs` lines 193-216): first forecast day, nearest-hour
selection by `time_epoch` against the target epoch, then field mapping. -/
def wa_forecast_normalize (now target : Int)
    (parsed : WaForecastResponse) : Except String WeatherResponse :=
  match parsed.forecast.forecastday.head? with
  | none => Except.error "WeatherAPI response contained no forecastday data"
  | some day =>
    match min_by_key (fun h => |h.time_epoch - target|) day.hour with
    | none => Except.error "WeatherAPI response contained no hourly data"
    | some hour_entry =>
      Except.ok
        { provider := "weatherapi"
          location_name := parsed.location.name
          temperature_c := hour_entry.temp_c
          feels_like_c := hour_entry.feelslike_c
          condition := hour_entry.condition.text
          humidity_pct := hour_entry.humidity
          wind_speed_mps := hour_entry.wind_kph / 3.6
          observation_time := (unix_to_utc hour_entry.time_epoch).getD now }

/-- `ProviderConfig` from `config.rs`. -/
structure ProviderConfig where
  api_key : String
deriving DecidableEq, Repr

/-- `Config` from `config.rs`; the `HashMap<String, ProviderConfig>` is
modelled as an association list with insert-shadowing lookup. -/
structure Config where
  default_provider : Option String
  providers : List (String × ProviderConfig)

/-- `Config::default()`: both fields empty. -/
def Config.default : Config :=
  { default_provider := none, providers := [] }

/-- `HashMap::insert`: bind the key to the new value, dropping any previous
binding. -/
def insert_assoc (l : List (String × ProviderConfig)) (k : String)
    (v : ProviderConfig) : List (String × ProviderConfig) :=
  (k, v) :: l.filter (fun p => p.1 ≠ k)

/-- `Config::provider_api_key` from `config.rs` lines 106-108. -/
def Config.provider_api_key (c : Config) (provider_id : ProviderId) :
    Option String :=
  (c.providers.lookup provider_id.as_str).map ProviderConfig.api_key

/-- The error message built in `Config::default_provider_id` (`config.rs`
lines 29-34). -/
def no_default_provider_msg : String :=
  "No default provider configured.\n" ++
    "Hint: run `weather configure <provider>` " ++
    "(e.g. `weather configure openweather`) first."

/-- `Config::default_provider_id` from `config.rs` lines 28-37: fail if no
default is designated, else parse the stored string. -/
def Config.default_provider_id (c : Config) : Except String ProviderId :=
  match c.default_provider with
  | none => Except.error no_default_provider_msg
  | some s => ProviderId.try_from s

/-- `Config::upsert_provider_api_key` from `config.rs` lines 97-103: store
the key under the provider's canonical name, then set the default provider
only when none was designated. -/
def Config.upsert_provider_api_key (c : Config) (provider_id : ProviderId)
    (api_key : String) : Config :=
  { providers := insert_assoc c.providers provider_id.as_str ⟨api_key⟩
    default_provider :=
      match c.default_provider with
      | none => some provider_id.as_str
      | some d => some d }

/-- A constructed adapter instance (`OpenWeatherProvider::new` /
`WeatherApiProvider::new`): the held credential, with the HTTP client handle
elided. -/
inductive ProviderInstance where
  | OpenWeatherProvider (api_key : String)
  | WeatherApiProvider (api_key : String)
deriving DecidableEq, Repr

/-- The error message built in `provider_from_config` (`provider.rs` lines
63-68). -/
def missing_key_msg (id : ProviderId) : String :=
  "No API key configured for provider '" ++ id.as_str ++ "'.\n" ++
    "Hint: run `weather configure " ++ id.as_str ++
    "` and enter your API key."

/-- `provider_from_config` from `provider.rs` lines 59-76: look up the
credential, fail when absent, otherwise construct the matching adapter. -/
def provider_from_config (id : ProviderId) (config : Config) :
    Except String ProviderInstance :=
  match config.provider_api_key id with
  | none => Except.error (missing_key_msg id)
  | some api_key =>
    Except.ok
      (match id with
       | ProviderId.OpenWeather => ProviderInstance.OpenWeatherProvider api_key
       | ProviderId.WeatherApi => ProviderInstance.WeatherApiProvider api_key)

/-- `default_provider_from_config` from `provider.rs` lines 79-82. -/
def default_provider_from_config (config : Config) :
    Except String ProviderInstance := do
  let id ← config.default_provider_id
  provider_from_config id config

/-- A WeatherAPI current payload whose upstream humidity field is 150:
`humidity` is a `u8`, so values above 100 decode successfully. -/
def wa_high_humidity_payload : WaResponse :=
  { location := { name := "X", localtime_epoch := none }
    current :=
      { temp_c := 20
        feelslike_c := 20
        humidity := 150
        wind_kph := 10
        condition := { text := "Sunny" }
        last_updated_epoch := some 1700000000 } }

/-- A WeatherAPI forecast payload with a single hour entry whose humidity
field is 150. -/
def wa_high_humidity_forecast : WaForecastResponse :=
  { location := { name := "X", localtime_epoch := none }
    forecast :=
      { forecastday :=
          [{ hour :=
              [{ time_epoch := 300
                 temp_c := 20
                 feelslike_c := 20
                 humidity := 150
                 wind_kph := 10
                 condition := { text := "Sunny" } }] }] } }

/-- The normalized observation produced from `wa_high_humidity_forecast`
at `now = 0`, `target = 250`. -/
def wa_high_humidity_forecast_resp : WeatherResponse :=
  { provider := "weatherapi"
    location_name := "X"
    temperature_c := 20
    feels_like_c := 20
    condition := "Sunny"
    humidity_pct := 150
    wind_speed_mps := 10 / 3.6
    observation_time := 300 }

/-- A WeatherAPI current payload reporting `wind_kph = 36.0` (the spec's
end-to-end wind-conversion scenario). -/
def wa_wind_36_payload : WaResponse :=
  { location := { name := "Kyiv", localtime_epoch := none }
    current :=
      { temp_c := 5
        feelslike_c := 2
        humidity := 80
        wind_kph := 36
        condition := { text := "clear" }
        last_updated_epoch := some 1700000000 } }

/-- A WeatherAPI forecast payload with one day holding hour entries at
epochs 100, 300 and 700. -/
def wa_three_hour_forecast : WaForecastResponse :=
  { location := { name := "L", localtime_epoch := none }
    forecast :=
      { forecastday :=
          [{ hour :=
              [{ time_epoch := 100
                 temp_c := 1
                 feelslike_c := 1
                 humidity := 10
                 wind_kph := 36
                 condition := { text := "a" } }
               , { time_epoch := 300
                   temp_c := 2
                   feelslike_c := 2
                   humidity := 20
                   wind_kph := 72
                   condition := { text := "b" } }
               , { time_epoch := 700
                   temp_c := 3
                   feelslike_c := 3
                   humidity := 30
                   wind_kph := 18
                   condition := { text := "c" } }] }] } }

/-- The normalized observation produced from `wa_three_hour_forecast` at
`now = 0`, `target = 250`: the hour entry at epoch 300 is selected. -/
def wa_three_hour_forecast_resp : WeatherResponse :=
  { provider := "weatherapi"
    location_name := "L"
    temperature_c := 2
    feels_like_c := 2
    condition := "b"
    humidity_pct := 20
    wind_speed_mps := 72 / 3.6
    observation_time := 300 }

/-- C3: `classify_date` is pure and total; no instant classifies as
`Current`, an instant strictly before `now` classifies as `Past`, and an
instant at or after `now` classifies as `Future` — in particular `t = now`
is `Future`. -/
theorem c3_classify_date_spec (now t : Int) :
    classify_date now none = DateRequest.Current ∧
    (t < now → classify_date now (some t) = DateRequest.Past t) ∧
    (now ≤ t → classify_date now (some t) = DateRequest.Future t) := by
  refine ⟨rfl, fun h => ?_, fun h => ?_⟩
  · simp [classify_date, h]
  · simp [classify_date, not_lt.mpr h]

theorem c3_classify_date_spec_witness :
    classify_date 5 (some 3) = DateRequest.Past 3 ∧
    classify_date 5 (some 5) = DateRequest.Future 5 ∧
    classify_date 5 (some 7) = DateRequest.Future 7 :=
  ⟨(c3_classify_date_spec 5 3).2.1 (by decide),
   (c3_classify_date_spec 5 5).2.2 (by decide),
   (c3_classify_date_spec 5 7).2.2 (by decide)⟩

/-- C2: the OpenWeather dispatch fails on every `Past` instant with the
capability error naming that instant, and on every `Future` instant more
than 5 days (432000 s) past `now` with the capability error stating the
allowed range; both failures are `OwAction.fail`, issued before any
endpoint is contacted, and both messages textually contain the rendered
instants. -/
theorem c2_openweather_capability (now t : Int) :
    (t < now → ow_dispatch now (some t) = OwAction.fail (ow_historical_msg t)) ∧
    (t > now + 5 * 86400 →
      ow_dispatch now (some t) =
        OwAction.fail (ow_range_msg t (now + 5 * 86400))) ∧
    (∃ u v : String, ow_historical_msg t = u ++ toString t ++ v) ∧
    (∃ u v w : String,
      ow_range_msg t (now + 5 * 86400) =
        (u ++ toString t ++ v) ++ toString (now + 5 * 86400) ++ w) := by
  refine ⟨fun h => ?_, fun h => ?_, ?_, ?_⟩
  · simp [ow_dispatch, classify_date, h]
  · have hnl : ¬ t < now := by omega
    have h' : now + 432000 < t := by omega
    simp [ow_dispatch, classify_date, hnl, h']
  · exact ⟨"Historical weather (",
      ") is not supported by free OpenWeather API.\n" ++
        "Only current weather and up to 5 days forecast are available.",
      by simp [ow_historical_msg, String.append_assoc]⟩
  · exact ⟨"Requested date ",
      " exceeds the 5-day forecast limit of free OpenWeather API.\n" ++
        "Allowed range: now .. ", ".",
      by simp [ow_range_msg, String.append_assoc]⟩

theorem c2_openweather_capability_witness :
    ow_dispatch 0 (some (-1)) = OwAction.fail (ow_historical_msg (-1)) ∧
    ow_dispatch 0 (some 518400) = OwAction.fail (ow_range_msg 518400 432000) :=
  ⟨(c2_openweather_capability 0 (-1)).1 (by decide),
   (c2_openweather_capability 0 518400).2.1 (by decide)⟩

/-- C1 counterexample: with `now = 0` and a requested instant one hour
later (same UTC calendar day), the instant classifies as `Future` yet the
WeatherApi adapter selects the current-conditions endpoint, not the
forecast endpoint — endpoint choice is not a function of the
classification alone. -/
theorem c1_counterexample :
    classify_date 0 (some 3600) = DateRequest.Future 3600 ∧
    wa_endpoint 0 (some 3600) = WaEndpoint.current ∧
    WaEndpoint.current ≠ WaEndpoint.forecast := by
  refine ⟨by decide, by decide, by decide⟩

/-- C1 (amended): the WeatherApi adapter selects the upstream endpoint by
comparing the requested instant's UTC calendar day with today's: a request
with no instant, or whose target falls on today's calendar day, uses the
current-conditions endpoint; a target on a strictly later day uses the
forecast endpoint; a target on a strictly earlier day uses the history
endpoint. -/
theorem c1_endpoint_by_calendar_day (now t : Int) :
    wa_endpoint now none = WaEndpoint.current ∧
    (epoch_day t = epoch_day now →
      wa_endpoint now (some t) = WaEndpoint.current) ∧
    (epoch_day t > epoch_day now →
      wa_endpoint now (some t) = WaEndpoint.forecast) ∧
    (epoch_day t < epoch_day now →
      wa_endpoint now (some t) = WaEndpoint.history) := by
  refine ⟨?_, fun h => ?_, fun h => ?_, fun h => ?_⟩
  · simp [wa_endpoint]
  · simp [wa_endpoint, h]
  · have hne : ¬ (epoch_day t = epoch_day now) := by omega
    simp [wa_endpoint, hne, h]
  · have hne : ¬ (epoch_day t = epoch_day now) := by omega
    have hng : ¬ (epoch_day t > epoch_day now) := by omega
    simp [wa_endpoint, hne, hng]

theorem c1_endpoint_by_calendar_day_witness :
    wa_endpoint 0 (some 3600) = WaEndpoint.current ∧
    wa_endpoint 0 (some 90000) = WaEndpoint.forecast ∧
    wa_endpoint 0 (some (-90000)) = WaEndpoint.history :=
  ⟨(c1_endpoint_by_calendar_day 0 3600).2.1 (by decide),
   (c1_endpoint_by_calendar_day 0 90000).2.2.1 (by decide),
   (c1_endpoint_by_calendar_day 0 (-90000)).2.2.2 (by decide)⟩

set_option maxRecDepth 4000 in
/-- C5: evaluating `truncate_body` at a 201-byte body (199 ASCII characters
followed by the two-byte character 'é') panics — byte offset 200 falls
inside the final character, so the Rust slice `&body[..200]` is invalid —
and even on an all-ASCII 201-byte body the produced excerpt is the 200-byte
prefix with `"..."` appended, not the bare truncation. -/
theorem c5_truncate_body_panic :
    truncate_body (List.replicate 199 'a' ++ ['é']) = none ∧
    utf8Len (List.replicate 199 'a' ++ ['é']) = 201 ∧
    truncate_body (List.replicate 201 'a') =
      some (List.replicate 200 'a' ++ "...".data) := by
  refine ⟨by decide, by decide, by decide⟩

/-- C7: `ProviderId` parsing round-trips the canonical form of both
identifiers, is case-insensitive (two inputs with the same lowercasing
parse to the same identifier), is total (every input yields an identifier
or the unknown-provider error for that input), and the unknown-provider
error message textually contains the canonical name of every supported
provider. -/
theorem c7_provider_id_parsing :
    (∀ id : ProviderId, ProviderId.try_from id.as_str = Except.ok id) ∧
    (∀ s₁ s₂ : String, to_lowercase s₁ = to_lowercase s₂ →
      ∀ id : ProviderId,
        (ProviderId.try_from s₁ = Except.ok id ↔
          ProviderId.try_from s₂ = Except.ok id)) ∧
    (∀ s : String, (∃ id, ProviderId.try_from s = Except.ok id) ∨
      ProviderId.try_from s = Except.error (unknown_provider_msg s)) ∧
    (∀ (s : String) (id : ProviderId),
      ∃ u v : String, unknown_provider_msg s = u ++ id.as_str ++ v) := by
  refine ⟨fun id => ?_, fun s₁ s₂ h id => ?_, fun s => ?_, fun s id => ?_⟩
  · cases id <;> rfl
  · simp only [ProviderId.try_from, h]
    by_cases h1 : to_lowercase s₂ = "openweather"
    · simp [h1]
    · by_cases h2 : to_lowercase s₂ = "weatherapi"
      · simp [h1, h2]
      · simp [h1, h2]
  · by_cases h1 : to_lowercase s = "openweather"
    · exact Or.inl ⟨ProviderId.OpenWeather, by simp [ProviderId.try_from, h1]⟩
    · by_cases h2 : to_lowercase s = "weatherapi"
      · exact Or.inl ⟨ProviderId.WeatherApi, by simp [ProviderId.try_from, h1, h2]⟩
      · exact Or.inr (by simp [ProviderId.try_from, h1, h2])
  · cases id
    · refine ⟨"Unknown provider '" ++ s ++ "'. Supported providers: ",
        ", weatherapi.", ?_⟩
      simp [unknown_provider_msg, ProviderId.as_str, String.append_assoc]
    · refine ⟨"Unknown provider '" ++ s ++ "'. Supported providers: openweather, ",
        ".", ?_⟩
      simp [unknown_provider_msg, ProviderId.as_str, String.append_assoc]

theorem c7_provider_id_parsing_witness :
    (ProviderId.try_from "OpenWeather" = Except.ok ProviderId.OpenWeather ↔
      ProviderId.try_from "openweather" = Except.ok ProviderId.OpenWeather) :=
  c7_provider_id_parsing.2.1 "OpenWeather" "openweather" (by decide)
    ProviderId.OpenWeather

/-- C8: `provider_from_config` fails with the missing-credential error for
every configuration holding no API key for the requested provider (and in
particular constructs no adapter), and `default_provider_from_config`
fails with the no-default-provider error for every configuration (whatever
credentials it holds) designating no default. -/
theorem c8_registry_failures :
    (∀ (config : Config) (id : ProviderId),
      config.provider_api_key id = none →
      provider_from_config id config = Except.error (missing_key_msg id)) ∧
    (∀ config : Config, config.default_provider = none →
      default_provider_from_config config =
        Except.error no_default_provider_msg) := by
  constructor
  · intro config id h
    simp [provider_from_config, h]
  · intro config h
    simp only [default_provider_from_config, Config.default_provider_id, h]
    rfl

theorem c8_registry_failures_witness :
    provider_from_config ProviderId.OpenWeather Config.default =
      Except.error (missing_key_msg ProviderId.OpenWeather) ∧
    default_provider_from_config Config.default =
      Except.error no_default_provider_msg :=
  ⟨c8_registry_failures.1 Config.default ProviderId.OpenWeather rfl,
   c8_registry_failures.2 Config.default rfl⟩

/-- C10: `upsert_provider_api_key` stores the key under the provider's
canonical name, designates that provider as default only when no default
existed, and leaves an already-designated default untouched for any later
upsert of any provider. -/
theorem c10_upsert_frame (config : Config) (id : ProviderId) (key : String) :
    (config.upsert_provider_api_key id key).provider_api_key id = some key ∧
    (config.default_provider = none →
      (config.upsert_provider_api_key id key).default_provider =
        some id.as_str) ∧
    (∀ d, config.default_provider = some d →
      (config.upsert_provider_api_key id key).default_provider = some d) := by
  refine ⟨?_, fun h => ?_, fun d h => ?_⟩
  · simp [Config.upsert_provider_api_key, Config.provider_api_key,
      insert_assoc, List.lookup]
  · simp [Config.upsert_provider_api_key, h]
  · simp [Config.upsert_provider_api_key, h]

theorem c10_upsert_frame_witness :
    ((Config.default.upsert_provider_api_key ProviderId.OpenWeather
        "K1").upsert_provider_api_key ProviderId.WeatherApi
        "K2").default_provider = some "openweather" := by
  have h :=
    (c10_upsert_frame
      (Config.default.upsert_provider_api_key ProviderId.OpenWeather "K1")
      ProviderId.WeatherApi "K2").2.2 "openweather" (by decide)
  exact h

/-- The fold of `min_step` never increases the key: its result's key is at
most the initial accumulator's and at most every traversed element's. -/
theorem foldl_min_step_le (f : α → Int) (xs : List α) :
    ∀ acc : α,
      f (xs.foldl (min_step f) acc) ≤ f acc ∧
      ∀ y ∈ xs, f (xs.foldl (min_step f) acc) ≤ f y := by
  induction xs with
  | nil => exact fun acc => ⟨le_refl _, by simp⟩
  | cons x ys ih =>
    intro acc
    simp only [List.foldl_cons]
    obtain ⟨h1, h2⟩ := ih (min_step f acc x)
    have hstep1 : f (min_step f acc x) ≤ f acc := by
      unfold min_step; split
      · exact le_of_lt (by assumption)
      · exact le_refl _
    have hstep2 : f (min_step f acc x) ≤ f x := by
      unfold min_step; split
      · exact le_refl _
      · exact le_of_not_lt (by assumption)
    refine ⟨le_trans h1 hstep1, ?_⟩
    intro y hy
    rcases List.mem_cons.mp hy with rfl | hy'
    · exact le_trans h1 hstep2
    · exact h2 y hy'

/-- The fold of `min_step` either keeps the initial accumulator, or lands
on a traversed element whose key beats the accumulator's and strictly
beats every earlier traversed element's. -/
theorem foldl_min_step_first (f : α → Int) (xs : List α) :
    ∀ acc : α,
      xs.foldl (min_step f) acc = acc ∨
      ∃ i, ∃ h : i < xs.length,
        xs.foldl (min_step f) acc = xs.get ⟨i, h⟩ ∧
        f (xs.foldl (min_step f) acc) < f acc ∧
        ∀ y ∈ xs.take i, f (xs.foldl (min_step f) acc) < f y := by
  induction xs with
  | nil => exact fun acc => Or.inl rfl
  | cons x ys ih =>
    intro acc
    simp only [List.foldl_cons, List.length_cons]
    by_cases hx : f x < f acc
    · rw [show min_step f acc x = x from if_pos hx]
      rcases ih x with heq | ⟨i, hi, heq, hlt, htake⟩
      · refine Or.inr ⟨0, by omega, heq, ?_, by simp⟩
        rw [heq]; exact hx
      · refine Or.inr ⟨i + 1, by omega, heq, lt_trans hlt hx, ?_⟩
        intro y hy
        rw [List.take_succ_cons] at hy
        rcases List.mem_cons.mp hy with rfl | hy'
        · exact hlt
        · exact htake y hy'
    · rw [show min_step f acc x = acc from if_neg hx]
      rcases ih acc with heq | ⟨i, hi, heq, hlt, htake⟩
      · exact Or.inl heq
      · refine Or.inr ⟨i + 1, by omega, heq, hlt, ?_⟩
        intro y hy
        rw [List.take_succ_cons] at hy
        rcases List.mem_cons.mp hy with rfl | hy'
        · exact lt_of_lt_of_le hlt (le_of_not_lt hx)
        · exact htake y hy'

/-- An element selected by `min_by_key` belongs to the list. -/
theorem min_by_key_mem (f : α → Int) (l : List α) (m : α)
    (h : min_by_key f l = some m) : m ∈ l := by
  cases l with
  | nil => exact absurd h (by simp [min_by_key])
  | cons x xs =>
    have hm : xs.foldl (min_step f) x = m := by
      simpa [min_by_key] using h
    rcases foldl_min_step_first f xs x with heq | ⟨i, hi, heq, _, _⟩
    · rw [hm] at heq
      rw [heq]
      exact List.mem_cons_self x xs
    · rw [hm] at heq
      rw [heq]
      exact List.mem_cons_of_mem x (List.get_mem xs i hi)

/-- C4: on every non-empty list, `min_by_key` — the selection used by both
adapters with key `|epoch - target|` — returns an element of the list whose
key is minimal and which strictly beats every earlier-indexed element
(first-minimal tie-break); the empty list yields no selection, which both
adapters turn into their data errors; and at epochs `[100, 300, 700]` with
target `250` the entry `300` is selected. -/
theorem c4_nearest_selection :
    (∀ (α : Type) (f : α → Int) (l : List α), l ≠ [] →
      ∃ i, ∃ h : i < l.length,
        min_by_key f l = some (l.get ⟨i, h⟩) ∧
        (∀ y ∈ l, f (l.get ⟨i, h⟩) ≤ f y) ∧
        (∀ y ∈ l.take i, f (l.get ⟨i, h⟩) < f y)) ∧
    (∀ (α : Type) (f : α → Int), min_by_key f ([] : List α) = none) ∧
    (∀ (now target : Int) (city : OwCity),
      ow_fetch_forecast_normalize now target ⟨city, []⟩ =
        Except.error "OpenWeather forecast response contained no data") ∧
    (∀ (now target : Int) (loc : WaLocation),
      wa_forecast_normalize now target ⟨loc, ⟨[]⟩⟩ =
        Except.error "WeatherAPI response contained no forecastday data") ∧
    (∀ (now target : Int) (loc : WaLocation),
      wa_forecast_normalize now target ⟨loc, ⟨[⟨[]⟩]⟩⟩ =
        Except.error "WeatherAPI response contained no hourly data") ∧
    min_by_key (fun e : Int => |e - 250|) [100, 300, 700] = some 300 := by
  refine ⟨?_, fun α f => rfl, fun now target city => rfl,
    fun now target loc => rfl, fun now target loc => rfl, by decide⟩
  intro α f l hl
  cases l with
  | nil => exact absurd rfl hl
  | cons x xs =>
    obtain ⟨hle_acc, hle_mem⟩ := foldl_min_step_le f xs x
    rcases foldl_min_step_first f xs x with heq | ⟨i, hi, heq, hlt, htake⟩
    · refine ⟨0, by simp, ?_, ?_, by simp⟩
      · show some (xs.foldl (min_step f) x) = _
        exact congrArg some heq
      · intro y hy
        show f x ≤ f y
        rcases List.mem_cons.mp hy with rfl | hy'
        · exact le_refl _
        · have := hle_mem y hy'
          rw [heq] at this
          exact this
    · refine ⟨i + 1, by simp only [List.length_cons]; omega, ?_, ?_, ?_⟩
      · show some (xs.foldl (min_step f) x) = _
        exact congrArg some heq
      · intro y hy
        show f (xs.get ⟨i, hi⟩) ≤ f y
        rw [← heq]
        rcases List.mem_cons.mp hy with rfl | hy'
        · exact le_of_lt hlt
        · exact hle_mem y hy'
      · intro y hy
        show f (xs.get ⟨i, hi⟩) < f y
        rw [← heq]
        rw [List.take_succ_cons] at hy
        rcases List.mem_cons.mp hy with rfl | hy'
        · exact hlt
        · exact htake y hy'

theorem c4_nearest_selection_witness :
    ([100, 300, 700] : List Int) ≠ [] ∧
    (∃ i, ∃ h : i < ([100, 300, 700] : List Int).length,
      min_by_key (fun e : Int => |e - 250|) [100, 300, 700] =
        some (([100, 300, 700] : List Int).get ⟨i, h⟩) ∧
      (∀ y ∈ ([100, 300, 700] : List Int),
        (fun e : Int => |e - 250|) (([100, 300, 700] : List Int).get ⟨i, h⟩) ≤
          (fun e : Int => |e - 250|) y) ∧
      (∀ y ∈ ([100, 300, 700] : List Int).take i,
        (fun e : Int => |e - 250|) (([100, 300, 700] : List Int).get ⟨i, h⟩) <
          (fun e : Int => |e - 250|) y)) :=
  ⟨by decide,
   c4_nearest_selection.1 Int (fun e => |e - 250|) [100, 300, 700] (by decide)⟩

/-- C6 counterexample: a successful WeatherApi current fetch whose upstream
humidity field is 150 (a valid `u8`) produces a normalized observation with
`humidity_pct = 150`, outside `[0,100]`; no adapter clamps or rejects the
value. -/
theorem c6_counterexample :
    (wa_current_normalize 0 wa_high_humidity_payload).humidity_pct = 150 ∧
    ¬ (wa_current_normalize 0 wa_high_humidity_payload).humidity_pct ≤ 100 :=
  ⟨rfl, by decide⟩

/-- C6 (amended): every normalized observation produced by a successful
fetch of either adapter carries the selected upstream entry's humidity
field unchanged — a `u8`, hence in `[0,255]` — so `humidity_pct` lies in
`[0,100]` exactly when the upstream value does. -/
theorem c6_humidity_passthrough :
    (∀ (now : Int) (parsed : OwCurrentResponse),
      (ow_fetch_current_normalize now parsed).humidity_pct =
        parsed.main.humidity) ∧
    (∀ (now : Int) (parsed : WaResponse),
      (wa_current_normalize now parsed).humidity_pct =
        parsed.current.humidity) ∧
    (∀ (now target : Int) (parsed : OwForecastResponse)
        (resp : WeatherResponse),
      ow_fetch_forecast_normalize now target parsed = Except.ok resp →
      ∃ e ∈ parsed.list, resp.humidity_pct = e.main.humidity) ∧
    (∀ (now target : Int) (parsed : WaForecastResponse)
        (resp : WeatherResponse),
      wa_forecast_normalize now target parsed = Except.ok resp →
      ∃ day ∈ parsed.forecast.forecastday, ∃ hr ∈ day.hour,
        resp.humidity_pct = hr.humidity) := by
  refine ⟨fun now parsed => rfl, fun now parsed => rfl, ?_, ?_⟩
  · intro now target parsed resp h
    unfold ow_fetch_forecast_normalize at h
    split at h
    · exact absurd h (by simp)
    · next entry hsel =>
      refine ⟨entry, min_by_key_mem _ _ _ hsel, ?_⟩
      injection h with h'
      rw [← h']
  · intro now target parsed resp h
    unfold wa_forecast_normalize at h
    split at h
    · exact absurd h (by simp)
    · next day hday =>
      split at h
      · exact absurd h (by simp)
      · next hr hsel =>
        refine ⟨day, List.mem_of_mem_head? (by simp [hday]), hr,
          min_by_key_mem _ _ _ hsel, ?_⟩
        injection h with h'
        rw [← h']

theorem c6_humidity_passthrough_witness :
    ∃ day ∈ wa_high_humidity_forecast.forecast.forecastday,
      ∃ hr ∈ day.hour,
        wa_high_humidity_forecast_resp.humidity_pct = hr.humidity :=
  c6_humidity_passthrough.2.2.2 0 250 wa_high_humidity_forecast
    wa_high_humidity_forecast_resp rfl

/-- C9: both WeatherApi normalization paths compute the wind speed as
`wind_kph / 3.6` — the current path directly, the forecast/history path on
the selected hour entry — and an upstream `wind_kph` of 36.0 yields
`wind_speed_mps` exactly 10 (`f64` arithmetic is modelled as exact
rational arithmetic). -/
theorem c9_wind_conversion :
    (∀ (now : Int) (parsed : WaResponse),
      (wa_current_normalize now parsed).wind_speed_mps =
        parsed.current.wind_kph / 3.6) ∧
    (∀ (now target : Int) (parsed : WaForecastResponse)
        (resp : WeatherResponse),
      wa_forecast_normalize now target parsed = Except.ok resp →
      ∃ day ∈ parsed.forecast.forecastday, ∃ hr ∈ day.hour,
        resp.wind_speed_mps = hr.wind_kph / 3.6) ∧
    (wa_current_normalize 0 wa_wind_36_payload).wind_speed_mps = 10 := by
  refine ⟨fun now parsed => rfl, ?_, ?_⟩
  · intro now target parsed resp h
    unfold wa_forecast_normalize at h
    split at h
    · exact absurd h (by simp)
    · next day hday =>
      split at h
      · exact absurd h (by simp)
      · next hr hsel =>
        refine ⟨day, List.mem_of_mem_head? (by simp [hday]), hr,
          min_by_key_mem _ _ _ hsel, ?_⟩
        injection h with h'
        rw [← h']
  · show (36 : ℚ) / 3.6 = 10
    norm_num

theorem c9_wind_conversion_witness :
    ∃ day ∈ wa_three_hour_forecast.forecast.forecastday,
      ∃ hr ∈ day.hour,
        wa_three_hour_forecast_resp.wind_speed_mps = hr.wind_kph / 3.6 :=
  c9_wind_conversion.2.1 0 250 wa_three_hour_forecast
    wa_three_hour_forecast_resp rfl

end WeatherTask
